import Mathlib

/-!
Shallow embedding of the tick-driven simulation core of `src/src/App.tsx`
(Tides of Fortune): tile/world model, player stats, game clock, inventory
and crafting, tide and regrowth sweeps, movement intents and interaction.

JavaScript numbers that hold fractional quantities (positions, energy,
hunger, random rolls) are modelled as `ℚ`; whole-minute counters and tile
indices are `Nat`/`ℤ`.  A JS object used as a sparse map is modelled as a
function into `Option`, so that a key present with value `0` is distinct
from an absent key (both arise in the source).
-/

namespace Tides

/-- Enum `TileType` from the source. -/
inductive TileType where
  | DeepWater
  | ShallowWater
  | Sand
  | Grass
deriving DecidableEq, Repr

/-- Union `ItemType` from the source. -/
inductive ItemType where
  | driftwood
  | crate
  | metal
  | axe
  | wood
  | coconut
  | tree
  | tree_stump
  | wall_wood
deriving DecidableEq, Repr, Fintype

/-- Union `Direction` from the source. -/
inductive Direction where
  | up
  | down
  | left
  | right
deriving DecidableEq, Repr

/-- Interface `Tile`: `item`, `stumpChoppedAt`, `placedStructure` are
optional fields (`undefined` = `none`).  The render-only `variant` field is
omitted.  `stumpChoppedAt` is a game-minute timestamp. -/
structure Tile where
  type : TileType
  item : Option ItemType
  stumpChoppedAt : Option Nat
  placedStructure : Option ItemType
deriving DecidableEq, Repr

/-- Interface `Player` (pose, stats, movement state). -/
structure Player where
  x : ℚ
  y : ℚ
  targetX : ℚ
  targetY : ℚ
  isMoving : Bool
  facing : Direction
  energy : ℚ
  hunger : ℚ
  isResting : Bool
deriving DecidableEq, Repr

/-- The JS inventory object `{ [key in ItemType]?: number }`: a sparse map.
A key can be present with value `0` (the source's `handleCraft` can store
zero), so presence is tracked with `Option`.  Counts are `ℤ` because JS
subtraction is unguarded. -/
abbrev Inventory := ItemType → Option ℤ

/-- Reading `inventory[item] || 0`. -/
def Inventory.get (inv : Inventory) (i : ItemType) : ℤ :=
  (inv i).getD 0

/-- Writing `inventory[item] = n`. -/
def Inventory.set (inv : Inventory) (i : ItemType) (n : ℤ) : Inventory :=
  fun j => if j = i then some n else inv j

/-- Deletion `delete inventory[item]`. -/
def Inventory.erase (inv : Inventory) (i : ItemType) : Inventory :=
  fun j => if j = i then none else inv j

/-- The empty inventory `{}`. -/
def Inventory.empty : Inventory := fun _ => none

/-- Interface `GameState`. -/
structure GameState where
  day : Nat
  timeOfDay : Nat
  totalMinutes : Nat
  inventory : Inventory

/-- Interface `Recipe`; `ingredients` keeps `Object.entries` insertion
order. -/
structure Recipe where
  id : String
  name : String
  result : ItemType
  amount : ℤ
  ingredients : List (ItemType × ℤ)

/-- The fixed `RECIPES` configuration table. -/
def RECIPES : List Recipe :=
  [ { id := "craft_axe", name := "Axe", result := ItemType.axe, amount := 1,
      ingredients := [(ItemType.metal, 1), (ItemType.driftwood, 1)] },
    { id := "craft_crate", name := "Crate", result := ItemType.crate, amount := 1,
      ingredients := [(ItemType.driftwood, 6)] },
    { id := "craft_wall_wood", name := "Wooden Wall", result := ItemType.wall_wood, amount := 1,
      ingredients := [(ItemType.wood, 2)] } ]

/-- The wooden-wall recipe (third entry of `RECIPES`). -/
def wallRecipe : Recipe :=
  { id := "craft_wall_wood", name := "Wooden Wall", result := ItemType.wall_wood, amount := 1,
    ingredients := [(ItemType.wood, 2)] }

/-- Lookup `ITEM_PROPS[i]?.edible` (only `coconut` is edible). -/
def edible (i : ItemType) : Bool := i = ItemType.coconut

/-- Lookup `props.hungerRestore || 10` (coconut restores 20). -/
def hungerRestore (i : ItemType) : ℚ := if i = ItemType.coconut then 20 else 10

/-- Lookup `ITEM_PROPS[i]?.placeable` (only `wall_wood` is placeable). -/
def placeable (i : ItemType) : Bool := i = ItemType.wall_wood

-- --- CraftingSystem: `handleCraft` ---

/-- The availability check loop of `handleCraft`: `canCraft` stays `true`
iff every ingredient amount is covered by the current count. -/
def canCraft (inv : Inventory) (r : Recipe) : Bool :=
  r.ingredients.all fun pr => decide (pr.2 ≤ inv.get pr.1)

/-- The deduction loop of `handleCraft`:
`inventory[item] = (inventory[item] || 0) - amount` over the entries in
order.  Note it never deletes a key that reaches zero. -/
def deductIngredients (inv : Inventory) (ings : List (ItemType × ℤ)) : Inventory :=
  ings.foldl (fun acc pr => acc.set pr.1 (acc.get pr.1 - pr.2)) inv

/-- Source `handleCraft` on the inventory: check all ingredients, then deduct all
and add the result. -/
def handleCraft (inv : Inventory) (r : Recipe) : Inventory :=
  if canCraft inv r then
    let inv2 := deductIngredients inv r.ingredients
    inv2.set r.result (inv2.get r.result + r.amount)
  else inv

/-- Total amount the ingredient list demands of one item kind. -/
def ingAmount (ings : List (ItemType × ℤ)) (i : ItemType) : ℤ :=
  ((ings.filter fun pr => pr.1 = i).map Prod.snd).sum

-- --- WorldGrid ---

def MAP_WIDTH : Nat := 50
def MAP_HEIGHT : Nat := 50
def GAME_MINS_PER_DAY : Nat := 24 * 60

/-- The tile grid.  The source bounds-checks every access against
`MAP_WIDTH`/`MAP_HEIGHT`, so a total function models `Tile[][]`. -/
abbrev WorldMap := Nat → Nat → Tile

/-- Assignment `map[y][x] = t`. -/
def setTile (m : WorldMap) (x y : Nat) (t : Tile) : WorldMap :=
  fun a b => if a = x ∧ b = y then t else m a b

/-- Rounding `Math.round` on a finite JS number: round half toward `+∞`. -/
def jsRound (q : ℚ) : ℤ := ⌊q + 1/2⌋

/-- Sign `Math.sign`. -/
def jsSign (q : ℚ) : ℚ := if 0 < q then 1 else if q < 0 then -1 else 0

/-- Horizontal offset of a direction (`left`/`right` adjust `x`). -/
def dirDx : Direction → ℤ
  | Direction.left => -1
  | Direction.right => 1
  | _ => 0

/-- Vertical offset of a direction (`up`/`down` adjust `y`). -/
def dirDy : Direction → ℤ
  | Direction.up => -1
  | Direction.down => 1
  | _ => 0

/-- The movement solidity predicate:
`targetTile.type === TileType.DeepWater || !!targetTile.item || !!targetTile.placedStructure`. -/
def isSolid (t : Tile) : Bool :=
  decide (t.type = TileType.DeepWater ∨ t.item ≠ none ∨ t.placedStructure ≠ none)

-- --- Regeneration cadence (the 100ms `regenTimer` body) ---

/-- One fired 100ms regeneration step: while resting, energy rises by `1.0`
clamped at 100 and hunger is drained by `0.05` only when the updated energy
is still below 100; while idle with `hunger > 50`, energy rises passively
by `0.05`. -/
def regenStep (p : Player) : Player :=
  if p.isResting then
    let e := min 100 (p.energy + 1)
    { p with energy := e,
             hunger := if e < 100 then max 0 (p.hunger - 5/100) else p.hunger }
  else if p.isMoving = false ∧ p.hunger > 50 then
    { p with energy := min 100 (p.energy + 5/100) }
  else p

-- --- RegrowthEngine: `checkRegrowth` ---

/-- Per-tile body of `checkRegrowth`.  The source guard is
`tile.item === 'tree_stump' && tile.stumpChoppedAt`, so a timestamp of `0`
is falsy and skipped.  The comparison
`currentTotalMinutes - tile.stumpChoppedAt >= REGROWTH_TIME` agrees with
truncated `Nat` subtraction because a negative JS difference and a
truncated `0` both fail the `≥ 1440` test. -/
def regrowthTileStep (tile : Tile) (currentTotalMinutes : Nat) : Tile :=
  if tile.item = some ItemType.tree_stump then
    match tile.stumpChoppedAt with
    | some t =>
      if t ≠ 0 ∧ 24 * 60 ≤ currentTotalMinutes - t then
        { tile with item := some ItemType.tree, stumpChoppedAt := none }
      else tile
    | none => tile
  else tile

/-- Source `checkRegrowth`: the per-tile step applied over the whole grid. -/
def checkRegrowth (m : WorldMap) (currentTotalMinutes : Nat) : WorldMap :=
  fun x y =>
    if x < MAP_WIDTH ∧ y < MAP_HEIGHT then regrowthTileStep (m x y) currentTotalMinutes
    else m x y

-- --- TideEngine: `triggerTide` ---

/-- Band classification of one uniform roll, read off the
`if`/`else if` chain of `triggerTide`. -/
def tideOutcome (roll : ℚ) : Option ItemType :=
  if roll < 15/100 then some ItemType.driftwood
  else if 88/100 < roll ∧ roll < 98/100 then some ItemType.metal
  else if 98/100 < roll then some ItemType.crate
  else none

/-- Per-tile body of `triggerTide`: only an empty, player-free Sand tile
draws a roll. -/
def tideTileStep (tile : Tile) (isPlayerHere : Bool) (roll : ℚ) : Tile :=
  if tile.type = TileType.Sand then
    if tile.item = none ∧ isPlayerHere = false ∧ tile.placedStructure = none then
      if roll < 15/100 then { tile with item := some ItemType.driftwood }
      else if 88/100 < roll ∧ roll < 98/100 then { tile with item := some ItemType.metal }
      else if 98/100 < roll then { tile with item := some ItemType.crate }
      else tile
    else tile
  else tile

/-- Eligibility read off the guards of `triggerTide`: an empty Sand tile
with no placed structure that is not under the player. -/
def tideEligible (tile : Tile) (isPlayerHere : Bool) : Prop :=
  tile.type = TileType.Sand ∧ tile.item = none ∧ isPlayerHere = false ∧
    tile.placedStructure = none

/-- Source `triggerTide`: sweep the grid once, with `roll` standing for the
per-tile `Math.random()` draws. -/
def triggerTide (m : WorldMap) (p : Player) (roll : Nat → Nat → ℚ) : WorldMap :=
  fun x y =>
    if x < MAP_WIDTH ∧ y < MAP_HEIGHT then
      tideTileStep (m x y)
        (decide (jsRound p.x = (x : ℤ) ∧ jsRound p.y = (y : ℤ))) (roll x y)
    else m x y

-- --- TimeManager: whole-minute advance (lines 471-488 of the source) ---

structure TickResult where
  map : WorldMap
  gs : GameState
  player : Player
  minuteEvent : Bool
  dayRollover : Bool

/-- The body of the `timeAccumulator >= msPerGameMin` branch of `update`,
given the whole-minute delta `minutesToAdd` it floors out of the
accumulator: advance `timeOfDay` and `totalMinutes` (with the lazy
`!gameState.totalMinutes` re-initialisation), fire the minute-boundary
event when the advanced `timeOfDay` is an exact multiple of 20 (hunger
decay and a regrowth sweep), then handle day rollover by subtraction and a
single tide sweep. -/
def timeAdvance (m : WorldMap) (gs : GameState) (p : Player) (minutesToAdd : Nat)
    (roll : Nat → Nat → ℚ) : TickResult :=
  let tod := gs.timeOfDay + minutesToAdd
  let total0 := if gs.totalMinutes = 0 then gs.day * GAME_MINS_PER_DAY + tod else gs.totalMinutes
  let total := total0 + minutesToAdd
  let minuteEvent : Bool := decide (tod % 20 = 0)
  let p1 := if minuteEvent then { p with hunger := max 0 (p.hunger - 1) } else p
  let m1 := if minuteEvent then checkRegrowth m total else m
  if GAME_MINS_PER_DAY ≤ tod then
    { map := triggerTide m1 p1 roll,
      gs := { day := gs.day + 1, timeOfDay := tod - GAME_MINS_PER_DAY,
              totalMinutes := total, inventory := gs.inventory },
      player := p1, minuteEvent := minuteEvent, dayRollover := true }
  else
    { map := m1,
      gs := { day := gs.day, timeOfDay := tod,
              totalMinutes := total, inventory := gs.inventory },
      player := p1, minuteEvent := minuteEvent, dayRollover := false }

-- --- PlayerController: movement ---

/-- Tile under the player's rounded position, with the `safeX`/`safeY`
clamping of the source. -/
def currentTileOf (m : WorldMap) (p : Player) : Tile :=
  let safeX := max 0 (min (jsRound p.x) (MAP_WIDTH - 1 : ℤ))
  let safeY := max 0 (min (jsRound p.y) (MAP_HEIGHT - 1 : ℤ))
  m safeX.toNat safeY.toNat

/-- The `isMoving` branch of `update`: advance toward the target by
`speed` per axis with exact snapping, and deduct the movement energy cost
on arrival.  `BASE_SPEED` is halved at zero energy, and halved again on
ShallowWater. -/
def moveStep (m : WorldMap) (p : Player) : Player :=
  let base : ℚ := if p.energy ≤ 0 then 3/100 * (1/2) else 3/100
  let speed : ℚ := if (currentTileOf m p).type = TileType.ShallowWater then base * (1/2) else base
  let dx := p.targetX - p.x
  let dy := p.targetY - p.y
  let x1 := if speed < |dx| then p.x + jsSign dx * speed else p.targetX
  let y1 := if speed < |dy| then p.y + jsSign dy * speed else p.targetY
  if x1 = p.targetX ∧ y1 = p.targetY then
    { p with x := x1, y := y1, isMoving := false, energy := max 0 (p.energy - 1/10) }
  else
    { p with x := x1, y := y1 }

/-- The idle-intent branch of `update` for one chosen direction: `facing`
is set first, then the candidate tile (current coordinates plus the unit
offset — the source reaches this branch only with grid-aligned
coordinates, where JS array indexing agrees with `⌊·⌋`) is bounds- and
solidity-checked before any target is committed. -/
def tryMove (m : WorldMap) (p : Player) (d : Direction) : Player :=
  let nx : ℚ := p.x + (dirDx d : ℚ)
  let ny : ℚ := p.y + (dirDy d : ℚ)
  let p1 := { p with facing := d }
  if 0 ≤ nx ∧ nx < (MAP_WIDTH : ℚ) ∧ 0 ≤ ny ∧ ny < (MAP_HEIGHT : ℚ) then
    if isSolid (m (Int.toNat ⌊nx⌋) (Int.toNat ⌊ny⌋)) then p1
    else { p1 with targetX := nx, targetY := ny, isMoving := true }
  else p1

-- --- PlayerController: interaction, placement, item use ---

/-- Source `handleInteraction`: gated on energy and resting, then harvest of the
faced tile (tree requires an equipped axe; stump is inert; any other item
is picked up). -/
def handleInteraction (m : WorldMap) (gs : GameState) (p : Player)
    (activeItem : Option ItemType) : WorldMap × GameState × Player :=
  if p.energy ≤ 0 ∨ p.isResting = true then (m, gs, p)
  else
    let tx := jsRound p.x + dirDx p.facing
    let ty := jsRound p.y + dirDy p.facing
    if 0 ≤ tx ∧ tx < (MAP_WIDTH : ℤ) ∧ 0 ≤ ty ∧ ty < (MAP_HEIGHT : ℤ) then
      let tile := m tx.toNat ty.toNat
      match tile.item with
      | none => (m, gs, p)
      | some it =>
        if it = ItemType.tree then
          if activeItem = some ItemType.axe then
            let inv1 := gs.inventory.set ItemType.wood (gs.inventory.get ItemType.wood + 3)
            let inv2 := inv1.set ItemType.coconut (inv1.get ItemType.coconut + 1)
            (setTile m tx.toNat ty.toNat
               { tile with item := some ItemType.tree_stump,
                           stumpChoppedAt := some gs.totalMinutes },
             { gs with inventory := inv2 },
             { p with energy := max 0 (p.energy - 10) })
          else (m, gs, p)
        else if it ≠ ItemType.tree_stump then
          (setTile m tx.toNat ty.toNat { tile with item := none },
           { gs with inventory := gs.inventory.set it (gs.inventory.get it + 1) },
           { p with energy := max 0 (p.energy - 5) })
        else (m, gs, p)
    else (m, gs, p)

/-- Source `handleUseItem`: clicking the active item deselects it; otherwise an
owned edible item is eaten (hunger restored, count decremented, key
deleted at zero) and an owned tool/structure becomes active. -/
def handleUseItem (inv : Inventory) (p : Player) (active : Option ItemType)
    (item : ItemType) : Inventory × Player × Option ItemType :=
  if active = some item then (inv, p, none)
  else if 0 < inv.get item then
    if edible item then
      let p1 := { p with hunger := min 100 (p.hunger + hungerRestore item) }
      let n := inv.get item - 1
      let inv1 := if n = 0 then (inv.set item n).erase item else inv.set item n
      (inv1, p1, none)
    else (inv, p, some item)
  else (inv, p, none)

/-- Source `handlePlaceItem`: a placeable active item lands on the faced tile if
that tile is in bounds, not DeepWater, and empty; the stack is decremented
and, at zero, removed and deselected. -/
def handlePlaceItem (m : WorldMap) (inv : Inventory) (p : Player)
    (active : Option ItemType) : WorldMap × Inventory × Option ItemType :=
  match active with
  | none => (m, inv, none)
  | some a =>
    if placeable a then
      let tx := jsRound p.x + dirDx p.facing
      let ty := jsRound p.y + dirDy p.facing
      if 0 ≤ tx ∧ tx < (MAP_WIDTH : ℤ) ∧ 0 ≤ ty ∧ ty < (MAP_HEIGHT : ℤ) then
        let tile := m tx.toNat ty.toNat
        if tile.type ≠ TileType.DeepWater ∧ tile.item = none ∧ tile.placedStructure = none then
          let m1 := setTile m tx.toNat ty.toNat { tile with placedStructure := some a }
          let n := inv.get a - 1
          if n = 0 then (m1, (inv.set a n).erase a, none)
          else (m1, inv.set a n, some a)
        else (m, inv, some a)
      else (m, inv, some a)
    else (m, inv, some a)

-- --- Concrete fixtures used by closed theorems ---

/-- A bare Grass tile. -/
def grassEmptyTile : Tile :=
  { type := TileType.Grass, item := none, stumpChoppedAt := none, placedStructure := none }

/-- A bare Sand tile (tide-eligible when the player is elsewhere). -/
def sandEmptyTile : Tile :=
  { type := TileType.Sand, item := none, stumpChoppedAt := none, placedStructure := none }

/-- A bare DeepWater tile (solid to movement). -/
def deepWaterTile : Tile :=
  { type := TileType.DeepWater, item := none, stumpChoppedAt := none, placedStructure := none }

/-- A stump chopped at minute 0 (a falsy timestamp in the source). -/
def stumpZeroTile : Tile :=
  { type := TileType.Grass, item := some ItemType.tree_stump,
    stumpChoppedAt := some 0, placedStructure := none }

/-- A stump chopped at minute 5. -/
def stumpFiveTile : Tile :=
  { type := TileType.Grass, item := some ItemType.tree_stump,
    stumpChoppedAt := some 5, placedStructure := none }

/-- A world of bare Grass tiles. -/
def grassWorld : WorldMap := fun _ _ => grassEmptyTile

/-- A world of DeepWater tiles. -/
def deepWorld : WorldMap := fun _ _ => deepWaterTile

/-- A degenerate random stream. -/
def zeroRoll : Nat → Nat → ℚ := fun _ _ => 0

/-- An idle mid-island player with mid-range stats. -/
def idleCenterPlayer : Player :=
  { x := 25, y := 25, targetX := 25, targetY := 25, isMoving := false,
    facing := Direction.down, energy := 50, hunger := 50, isResting := false }

/-- The same player while resting. -/
def restingCenterPlayer : Player := { idleCenterPlayer with isResting := true }

/-- A resting player whose energy is already at the cap. -/
def restingFullPlayer : Player := { restingCenterPlayer with energy := 100 }

/-- Inventory holding exactly two wood. -/
def invWood2 : Inventory := Inventory.empty.set ItemType.wood 2

/-- Inventory holding exactly one coconut. -/
def invCoconut1 : Inventory := Inventory.empty.set ItemType.coconut 1

/-- Inventory holding exactly one wooden wall. -/
def invWall1 : Inventory := Inventory.empty.set ItemType.wall_wood 1

/-- A game state shortly before a 20-minute boundary. -/
def gsNineteen : GameState :=
  { day := 1, timeOfDay := 19, totalMinutes := 500, inventory := Inventory.empty }

/-- A game state two minutes before a 20-minute boundary. -/
def gsEighteen : GameState :=
  { day := 1, timeOfDay := 18, totalMinutes := 499, inventory := Inventory.empty }

/-- A game state shortly before midnight (scenario of §8). -/
def gsLate : GameState :=
  { day := 3, timeOfDay := 1430, totalMinutes := 5000, inventory := Inventory.empty }

-- --- Shared helper lemmas ---

/-- Energy and hunger both lie in the closed interval `[0, 100]`. -/
def statsInRange (p : Player) : Prop :=
  0 ≤ p.energy ∧ p.energy ≤ 100 ∧ 0 ≤ p.hunger ∧ p.hunger ≤ 100

theorem min100_mem (x : ℚ) (hx : 0 ≤ x) : 0 ≤ min 100 x ∧ min 100 x ≤ 100 :=
  ⟨le_min (by norm_num) hx, min_le_left _ _⟩

theorem max0_mem (x : ℚ) (hx : x ≤ 100) : 0 ≤ max 0 x ∧ max 0 x ≤ 100 :=
  ⟨le_max_left _ _, max_le (by norm_num) hx⟩

theorem Inventory.get_set_self (inv : Inventory) (i : ItemType) (n : ℤ) :
    (inv.set i n).get i = n := by
  simp [Inventory.get, Inventory.set]

theorem Inventory.get_set_ne (inv : Inventory) (i j : ItemType) (n : ℤ)
    (h : j ≠ i) : (inv.set i n).get j = inv.get j := by
  simp [Inventory.get, Inventory.set, h]

theorem canCraft_iff (inv : Inventory) (r : Recipe) :
    canCraft inv r = true ↔ ∀ pr ∈ r.ingredients, pr.2 ≤ inv.get pr.1 := by
  simp [canCraft, List.all_eq_true]

theorem deductIngredients_get (ings : List (ItemType × ℤ)) (inv : Inventory)
    (i : ItemType) :
    (deductIngredients inv ings).get i = inv.get i - ingAmount ings i := by
  induction ings generalizing inv with
  | nil => simp [deductIngredients, ingAmount]
  | cons pr rest ih =>
    simp only [deductIngredients, List.foldl_cons] at *
    rw [ih]
    by_cases h : pr.1 = i
    · subst h
      simp [Inventory.set, Inventory.get, ingAmount, List.filter_cons]
      ring
    · have h2 : ¬ i = pr.1 := fun hh => h hh.symm
      simp [Inventory.set, Inventory.get, ingAmount, List.filter_cons, h, h2]

theorem hungerRestore_nonneg (i : ItemType) : 0 ≤ hungerRestore i := by
  unfold hungerRestore
  split_ifs <;> norm_num

theorem timeAdvance_player_cases (m : WorldMap) (gs : GameState) (p : Player)
    (k : Nat) (roll : Nat → Nat → ℚ) :
    (timeAdvance m gs p k roll).player = p ∨
    (timeAdvance m gs p k roll).player =
      { p with hunger := max 0 (p.hunger - 1) } := by
  unfold timeAdvance
  dsimp only
  split_ifs <;> first | (left; rfl) | (right; rfl)

theorem moveStep_stats_cases (m : WorldMap) (p : Player) :
    (moveStep m p).hunger = p.hunger ∧
    ((moveStep m p).energy = p.energy ∨
      (moveStep m p).energy = max 0 (p.energy - 1/10)) := by
  unfold moveStep
  dsimp only
  split_ifs <;> exact ⟨rfl, by first | (left; rfl) | (right; rfl)⟩

theorem handleUseItem_player_cases (inv : Inventory) (p : Player)
    (active : Option ItemType) (item : ItemType) :
    (handleUseItem inv p active item).2.1 = p ∨
    (handleUseItem inv p active item).2.1 =
      { p with hunger := min 100 (p.hunger + hungerRestore item) } := by
  unfold handleUseItem
  dsimp only
  split_ifs <;> first | (left; rfl) | (right; rfl)

theorem handleInteraction_player_cases (m : WorldMap) (gs : GameState)
    (p : Player) (a : Option ItemType) :
    (handleInteraction m gs p a).2.2 = p ∨
    (handleInteraction m gs p a).2.2 =
      { p with energy := max 0 (p.energy - 10) } ∨
    (handleInteraction m gs p a).2.2 =
      { p with energy := max 0 (p.energy - 5) } := by
  unfold handleInteraction
  by_cases h1 : p.energy ≤ 0 ∨ p.isResting = true
  · rw [if_pos h1]; left; rfl
  · rw [if_neg h1]
    dsimp only
    by_cases h2 : 0 ≤ jsRound p.x + dirDx p.facing ∧
        jsRound p.x + dirDx p.facing < (MAP_WIDTH : ℤ) ∧
        0 ≤ jsRound p.y + dirDy p.facing ∧
        jsRound p.y + dirDy p.facing < (MAP_HEIGHT : ℤ)
    · rw [if_pos h2]
      rcases hit : (m (jsRound p.x + dirDx p.facing).toNat
          (jsRound p.y + dirDy p.facing).toNat).item with - | it
      · left; rfl
      · dsimp only
        by_cases h3 : it = ItemType.tree
        · rw [if_pos h3]
          by_cases h4 : a = some ItemType.axe
          · rw [if_pos h4]; right; left; rfl
          · rw [if_neg h4]; left; rfl
        · rw [if_neg h3]
          by_cases h5 : it ≠ ItemType.tree_stump
          · rw [if_pos h5]; right; right; rfl
          · rw [if_neg h5]; left; rfl
    · rw [if_neg h2]; left; rfl

-- --- Claim theorems ---

/-- C10: an Interact intent is a complete no-op — no tile mutation, no
inventory change, no energy change — whenever the player's energy is ≤ 0 or
the player is Resting, regardless of what the faced tile contains. -/
theorem interaction_gated_on_energy_and_rest (m : WorldMap) (gs : GameState)
    (p : Player) (a : Option ItemType)
    (h : p.energy ≤ 0 ∨ p.isResting = true) :
    handleInteraction m gs p a = (m, gs, p) := by
  unfold handleInteraction
  rw [if_pos h]

/-- Witness for C10: a resting player facing an axe interaction changes
nothing. -/
theorem interaction_gated_witness :
    handleInteraction grassWorld gsNineteen restingCenterPlayer
        (some ItemType.axe) =
      (grassWorld, gsNineteen, restingCenterPlayer) :=
  interaction_gated_on_energy_and_rest grassWorld gsNineteen
    restingCenterPlayer (some ItemType.axe) (Or.inr rfl)

/-- C9: a movement intent whose candidate tile is out of bounds or solid
still updates `facing` to the chosen direction but leaves position,
target tile and movement state untouched. -/
theorem blocked_move_updates_facing_only (m : WorldMap) (p : Player)
    (d : Direction)
    (h : ¬(0 ≤ p.x + (dirDx d : ℚ) ∧ p.x + (dirDx d : ℚ) < (MAP_WIDTH : ℚ) ∧
            0 ≤ p.y + (dirDy d : ℚ) ∧ p.y + (dirDy d : ℚ) < (MAP_HEIGHT : ℚ)) ∨
        isSolid (m (Int.toNat ⌊p.x + (dirDx d : ℚ)⌋)
                   (Int.toNat ⌊p.y + (dirDy d : ℚ)⌋)) = true) :
    tryMove m p d = { p with facing := d } := by
  unfold tryMove
  rcases h with h | h
  · rw [if_neg h]
  · dsimp only
    split_ifs <;> rfl

/-- Witness for C9: stepping up into DeepWater turns the player but does
not move them. -/
theorem blocked_move_witness :
    tryMove deepWorld idleCenterPlayer Direction.up =
      { idleCenterPlayer with facing := Direction.up } :=
  blocked_move_updates_facing_only deepWorld idleCenterPlayer Direction.up
    (Or.inr (by decide))

/-- C6: crafting is all-or-nothing — one ingredient short leaves the
inventory completely unchanged, and when every requirement is met the
result of the transaction is exactly the deduction of every ingredient
plus the recipe output. -/
theorem handleCraft_all_or_nothing (inv : Inventory) (r : Recipe) :
    ((∃ pr ∈ r.ingredients, inv.get pr.1 < pr.2) → handleCraft inv r = inv) ∧
    ((∀ pr ∈ r.ingredients, pr.2 ≤ inv.get pr.1) →
      ∀ i : ItemType,
        (handleCraft inv r).get i =
          inv.get i - ingAmount r.ingredients i +
            (if i = r.result then r.amount else 0)) := by
  constructor
  · rintro ⟨pr, hmem, hlt⟩
    have hfalse : ¬ canCraft inv r = true := by
      intro hc
      exact absurd ((canCraft_iff inv r).mp hc pr hmem) (not_le.mpr hlt)
    unfold handleCraft
    rw [if_neg hfalse]
  · intro hall i
    have htrue : canCraft inv r = true := (canCraft_iff inv r).mpr hall
    unfold handleCraft
    rw [if_pos htrue]
    by_cases hi : i = r.result
    · subst hi
      rw [Inventory.get_set_self, deductIngredients_get]
      simp
    · rw [Inventory.get_set_ne _ _ _ _ hi, deductIngredients_get]
      simp [hi]

/-- Witness for C6: a missing ingredient leaves the inventory unchanged,
and crafting the wooden wall with wood = 2 produces one wall. -/
theorem handleCraft_all_or_nothing_witness :
    handleCraft invCoconut1 wallRecipe = invCoconut1 ∧
    (handleCraft invWood2 wallRecipe).get ItemType.wall_wood = 1 := by
  constructor
  · exact (handleCraft_all_or_nothing invCoconut1 wallRecipe).1
      ⟨(ItemType.wood, 2), by decide, by decide⟩
  · have h := (handleCraft_all_or_nothing invWood2 wallRecipe).2
      (by decide) ItemType.wall_wood
    rw [h]
    decide

/-- Counterexample to C8: a stump whose chop timestamp is 0 is skipped by
the falsy guard `tile.stumpChoppedAt`, so at `totalMinutes = 1440 ≥ 0 + 1440`
it stays a stump although the claim requires it to become a tree. -/
theorem regrowth_zero_timestamp_counterexample :
    (regrowthTileStep stumpZeroTile 1440).item = some ItemType.tree_stump ∧
    regrowthTileStep stumpZeroTile 1440 = stumpZeroTile ∧
    0 + 24 * 60 ≤ 1440 := by
  decide

/-- C8 (amended): for every tile holding a stump with a nonzero chop
timestamp `T`, a regrowth sweep turns it into a tree and clears the
timestamp iff evaluated at `totalMinutes ≥ T + 1440`; at `T + 1439` it
stays a stump; the grid sweep applies this step to every in-bounds tile. -/
theorem stump_regrowth_iff (tile : Tile) (t tm : Nat)
    (hitem : tile.item = some ItemType.tree_stump)
    (hts : tile.stumpChoppedAt = some t) (hnz : t ≠ 0) :
    (regrowthTileStep tile tm =
        { tile with item := some ItemType.tree, stumpChoppedAt := none } ↔
      t + 24 * 60 ≤ tm) ∧
    (tm < t + 24 * 60 → regrowthTileStep tile tm = tile) ∧
    (∀ (m : WorldMap) (x y : Nat), x < MAP_WIDTH → y < MAP_HEIGHT →
      checkRegrowth m tm x y = regrowthTileStep (m x y) tm) := by
  have hstep : regrowthTileStep tile tm =
      if t ≠ 0 ∧ 24 * 60 ≤ tm - t then
        { tile with item := some ItemType.tree, stumpChoppedAt := none }
      else tile := by
    unfold regrowthTileStep
    rw [if_pos hitem, hts]
  have hcond : (t ≠ 0 ∧ 24 * 60 ≤ tm - t) ↔ t + 24 * 60 ≤ tm := by
    constructor
    · rintro ⟨-, h2⟩; omega
    · intro h; exact ⟨hnz, by omega⟩
  refine ⟨⟨?_, ?_⟩, ?_, ?_⟩
  · intro heq
    by_contra hlt
    rw [hstep, if_neg (fun hc => hlt (hcond.mp hc))] at heq
    have : tile.item = some ItemType.tree := by rw [heq]
    rw [hitem] at this
    exact absurd this (by simp)
  · intro hle
    rw [hstep, if_pos (hcond.mpr hle)]
  · intro hlt
    rw [hstep, if_neg (fun hc => absurd (hcond.mp hc) (by omega))]
  · intro m x y hx hy
    unfold checkRegrowth
    rw [if_pos ⟨hx, hy⟩]

/-- Witness for C8: the stump chopped at minute 5 regrows at minute 1445
and not at minute 1444. -/
theorem stump_regrowth_iff_witness :
    regrowthTileStep stumpFiveTile 1445 =
      { stumpFiveTile with item := some ItemType.tree, stumpChoppedAt := none } ∧
    regrowthTileStep stumpFiveTile 1444 = stumpFiveTile := by
  constructor
  · exact (stump_regrowth_iff stumpFiveTile 5 1445 rfl rfl (by decide)).1.mpr
      (by norm_num)
  · exact (stump_regrowth_iff stumpFiveTile 5 1444 rfl rfl (by decide)).2.1
      (by norm_num)

/-- C5: a tick that takes `timeOfDay` to at least `GAME_MINS_PER_DAY`
rolls the day over by subtraction (preserving the overflow remainder, not
modulo), increments `day` by 1, and applies the tide sweep exactly once
(over the grid produced by an optional same-tick regrowth sweep). -/
theorem day_rollover_by_subtraction (m : WorldMap) (gs : GameState)
    (p : Player) (k : Nat) (roll : Nat → Nat → ℚ)
    (h : GAME_MINS_PER_DAY ≤ gs.timeOfDay + k) :
    (timeAdvance m gs p k roll).gs.timeOfDay =
        gs.timeOfDay + k - GAME_MINS_PER_DAY ∧
    (timeAdvance m gs p k roll).gs.day = gs.day + 1 ∧
    (timeAdvance m gs p k roll).dayRollover = true ∧
    (timeAdvance m gs p k roll).map =
      triggerTide
        (if (gs.timeOfDay + k) % 20 = 0 then
            checkRegrowth m ((timeAdvance m gs p k roll).gs.totalMinutes)
          else m)
        ((timeAdvance m gs p k roll).player) roll := by
  unfold timeAdvance
  dsimp only
  rw [if_pos h]
  refine ⟨rfl, rfl, rfl, ?_⟩
  by_cases hm : (gs.timeOfDay + k) % 20 = 0
  · simp [hm]
  · simp [hm]

/-- Witness for C5: the §8 scenario — from `timeOfDay = 1430` a 20-minute
advance gives `day + 1`, `timeOfDay = 10`, and the rollover flag. -/
theorem day_rollover_witness :
    (timeAdvance grassWorld gsLate idleCenterPlayer 20 zeroRoll).gs.timeOfDay = 10 ∧
    (timeAdvance grassWorld gsLate idleCenterPlayer 20 zeroRoll).gs.day = 4 ∧
    (timeAdvance grassWorld gsLate idleCenterPlayer 20 zeroRoll).dayRollover = true := by
  have h := day_rollover_by_subtraction grassWorld gsLate idleCenterPlayer 20 zeroRoll
    (by decide)
  exact ⟨h.1, h.2.1, h.2.2.1⟩

/-- Counterexample to C3: a 2-minute tick from `timeOfDay = 19` crosses the
multiple 20 yet fires no minute-boundary event: hunger is not decayed. -/
theorem minute_event_skipped_counterexample :
    gsNineteen.timeOfDay < 20 ∧ 20 ≤ gsNineteen.timeOfDay + 2 ∧
    (timeAdvance grassWorld gsNineteen idleCenterPlayer 2 zeroRoll).minuteEvent
        = false ∧
    (timeAdvance grassWorld gsNineteen idleCenterPlayer 2 zeroRoll).player =
        idleCenterPlayer := by
  refine ⟨by decide, by decide, rfl, rfl⟩

/-- C3 (amended): the minute-boundary event fires iff the advanced
`timeOfDay` lands exactly on a multiple of 20; when it fires, hunger
decays by 1 clamped at 0 and the regrowth sweep is applied (composed with
the tide sweep when a rollover also fires); when it does not fire the
player is untouched. -/
theorem minute_event_iff_exact_multiple (m : WorldMap) (gs : GameState)
    (p : Player) (k : Nat) (roll : Nat → Nat → ℚ) :
    ((timeAdvance m gs p k roll).minuteEvent = true ↔
        (gs.timeOfDay + k) % 20 = 0) ∧
    ((gs.timeOfDay + k) % 20 = 0 →
        (timeAdvance m gs p k roll).player =
          { p with hunger := max 0 (p.hunger - 1) }) ∧
    ((gs.timeOfDay + k) % 20 ≠ 0 → (timeAdvance m gs p k roll).player = p) ∧
    ((gs.timeOfDay + k) % 20 = 0 → gs.timeOfDay + k < GAME_MINS_PER_DAY →
        (timeAdvance m gs p k roll).map =
          checkRegrowth m ((timeAdvance m gs p k roll).gs.totalMinutes)) := by
  refine ⟨?_, ?_, ?_, ?_⟩
  · unfold timeAdvance
    dsimp only
    split_ifs <;> simp_all
  · intro hm
    unfold timeAdvance
    dsimp only
    split_ifs <;> simp_all
  · intro hm
    unfold timeAdvance
    dsimp only
    split_ifs <;> simp_all
  · intro hm hlt
    unfold timeAdvance
    dsimp only
    rw [if_neg (by omega : ¬ GAME_MINS_PER_DAY ≤ gs.timeOfDay + k)]
    simp [hm]

/-- Witness for C3: a tick landing on minute 20 decays hunger; a tick
landing on 21 leaves the player untouched. -/
theorem minute_event_witness :
    (timeAdvance grassWorld gsEighteen idleCenterPlayer 2 zeroRoll).player =
      { idleCenterPlayer with hunger := max 0 (idleCenterPlayer.hunger - 1) } ∧
    (timeAdvance grassWorld gsNineteen idleCenterPlayer 2 zeroRoll).player =
      idleCenterPlayer := by
  constructor
  · exact (minute_event_iff_exact_multiple grassWorld gsEighteen idleCenterPlayer
      2 zeroRoll).2.1 (by decide)
  · exact (minute_event_iff_exact_multiple grassWorld gsNineteen idleCenterPlayer
      2 zeroRoll).2.2.1 (by decide)

/-- Counterexample to C1: with energy 50 < 100 a resting step already
drains hunger, and with energy pinned at 100 a resting step leaves hunger
unchanged — the exact opposite of the claimed gating. -/
theorem resting_hunger_drain_counterexample :
    ((regenStep restingCenterPlayer).energy < 100 ∧
      (regenStep restingCenterPlayer).hunger < restingCenterPlayer.hunger) ∧
    (restingFullPlayer.energy = 100 ∧ 0 < restingFullPlayer.hunger ∧
      (regenStep restingFullPlayer).hunger = restingFullPlayer.hunger) := by
  refine ⟨⟨?_, ?_⟩, ?_, ?_, ?_⟩ <;>
    norm_num [regenStep, restingCenterPlayer, restingFullPlayer,
      idleCenterPlayer, min_def, max_def]

/-- C1 (amended): while Resting with `hunger > 0`, each 100ms step is
non-decreasing in energy and clamped at 100; hunger strictly decreases on
exactly those steps whose post-increment energy is still below 100, and is
left unchanged once energy has reached the cap. -/
theorem resting_regen_spec (p : Player) (hrest : p.isResting = true)
    (hrange : statsInRange p) (hh : 0 < p.hunger) :
    p.energy ≤ (regenStep p).energy ∧ (regenStep p).energy ≤ 100 ∧
    ((regenStep p).energy < 100 → (regenStep p).hunger < p.hunger) ∧
    (¬ (regenStep p).energy < 100 → (regenStep p).hunger = p.hunger) := by
  obtain ⟨he0, he1, hh0, hh1⟩ := hrange
  have hstep : regenStep p =
      { p with energy := min 100 (p.energy + 1),
               hunger := if min 100 (p.energy + 1) < 100 then
                   max 0 (p.hunger - 5/100) else p.hunger } := by
    unfold regenStep
    rw [if_pos hrest]
  rw [hstep]
  refine ⟨le_min he1 (by linarith), min_le_left _ _, ?_, ?_⟩
  · intro hlt
    dsimp only at hlt ⊢
    rw [if_pos hlt]
    exact max_lt hh (by linarith)
  · intro hge
    dsimp only at hge ⊢
    rw [if_neg hge]

/-- Witness for C1 (amended): a resting player at energy 50, hunger 50
gains energy and loses hunger in one step. -/
theorem resting_regen_spec_witness :
    restingCenterPlayer.energy ≤ (regenStep restingCenterPlayer).energy ∧
    (regenStep restingCenterPlayer).hunger < restingCenterPlayer.hunger := by
  have h := resting_regen_spec restingCenterPlayer rfl
    (by refine ⟨?_, ?_, ?_, ?_⟩ <;> decide) (by decide)
  exact ⟨h.1, h.2.2.1 (by
    norm_num [regenStep, restingCenterPlayer, idleCenterPlayer, min_def])⟩

/-- Counterexample to C2: crafting the wooden wall with exactly two wood
succeeds but leaves the `wood` key present with count 0 — not absent as
claimed. -/
theorem craft_retains_zero_counterexample :
    handleCraft invWood2 wallRecipe ItemType.wood = some 0 ∧
    (handleCraft invWood2 wallRecipe).get ItemType.wall_wood = 1 := by
  refine ⟨?_, ?_⟩ <;> decide

/-- C2 (amended): the use/eat and place operations delete an inventory key
whose count reaches zero, but `handleCraft` does not: crafting the wooden
wall with exactly wood = 2 succeeds, adds one wall, and retains the `wood`
key with count 0. -/
theorem inventory_zero_key_handling :
    (∀ (inv : Inventory) (p : Player) (active : Option ItemType)
        (item : ItemType),
        active ≠ some item → edible item = true → inv.get item = 1 →
        (handleUseItem inv p active item).1 item = none) ∧
    (∀ (m : WorldMap) (inv : Inventory) (p : Player) (a : ItemType),
        placeable a = true → inv.get a = 1 →
        0 ≤ jsRound p.x + dirDx p.facing →
        jsRound p.x + dirDx p.facing < (MAP_WIDTH : ℤ) →
        0 ≤ jsRound p.y + dirDy p.facing →
        jsRound p.y + dirDy p.facing < (MAP_HEIGHT : ℤ) →
        (m (jsRound p.x + dirDx p.facing).toNat
            (jsRound p.y + dirDy p.facing).toNat).type ≠ TileType.DeepWater →
        (m (jsRound p.x + dirDx p.facing).toNat
            (jsRound p.y + dirDy p.facing).toNat).item = none →
        (m (jsRound p.x + dirDx p.facing).toNat
            (jsRound p.y + dirDy p.facing).toNat).placedStructure = none →
        (handlePlaceItem m inv p (some a)).2.1 a = none ∧
          (handlePlaceItem m inv p (some a)).2.2 = none) ∧
    (handleCraft invWood2 wallRecipe ItemType.wood = some 0 ∧
      (handleCraft invWood2 wallRecipe).get ItemType.wall_wood = 1) := by
  refine ⟨?_, ?_, by decide, by decide⟩
  · intro inv p active item hact hed hone
    unfold handleUseItem
    rw [if_neg hact, if_pos (by rw [hone]; norm_num), if_pos hed]
    dsimp only
    rw [hone]
    norm_num [Inventory.erase]
  · intro m inv p a hpl hone hx0 hx1 hy0 hy1 htyp hitem hps
    unfold handlePlaceItem
    dsimp only
    rw [if_pos hpl, if_pos ⟨hx0, hx1, hy0, hy1⟩, if_pos ⟨htyp, hitem, hps⟩,
      hone]
    norm_num [Inventory.erase]

/-- Witness for C2 (amended): eating the last coconut removes its key, and
placing the last wall removes its key and deselects it. -/
theorem inventory_zero_key_witness :
    (handleUseItem invCoconut1 idleCenterPlayer none ItemType.coconut).1
        ItemType.coconut = none ∧
    ((handlePlaceItem grassWorld invWall1 idleCenterPlayer
        (some ItemType.wall_wood)).2.1 ItemType.wall_wood = none ∧
      (handlePlaceItem grassWorld invWall1 idleCenterPlayer
        (some ItemType.wall_wood)).2.2 = none) := by
  constructor
  · exact inventory_zero_key_handling.1 invCoconut1 idleCenterPlayer none
      ItemType.coconut (by simp) (by decide) (by decide)
  · exact inventory_zero_key_handling.2.1 grassWorld invWall1 idleCenterPlayer
      ItemType.wall_wood (by decide) (by decide)
      (by norm_num [jsRound, idleCenterPlayer, dirDx])
      (by norm_num [jsRound, idleCenterPlayer, dirDx, MAP_WIDTH])
      (by norm_num [jsRound, idleCenterPlayer, dirDy])
      (by norm_num [jsRound, idleCenterPlayer, dirDy, MAP_HEIGHT])
      (by simp [grassWorld, grassEmptyTile])
      (by simp [grassWorld, grassEmptyTile])
      (by simp [grassWorld, grassEmptyTile])

/-- C4: every write to energy or hunger — resting and passive
regeneration, hunger decay, movement cost, harvest cost, eating — is
clamped to `[0, 100]`, so both stats stay in range from any in-range
state, for every tick and every input. -/
theorem stats_stay_in_range (p : Player) (h : statsInRange p) :
    statsInRange (regenStep p) ∧
    (∀ (m : WorldMap) (gs : GameState) (k : Nat) (roll : Nat → Nat → ℚ),
        statsInRange ((timeAdvance m gs p k roll).player)) ∧
    (∀ m : WorldMap, statsInRange (moveStep m p)) ∧
    (∀ (m : WorldMap) (gs : GameState) (a : Option ItemType),
        statsInRange (handleInteraction m gs p a).2.2) ∧
    (∀ (inv : Inventory) (active : Option ItemType) (item : ItemType),
        statsInRange (handleUseItem inv p active item).2.1) := by
  obtain ⟨he0, he1, hh0, hh1⟩ := h
  refine ⟨?_, ?_, ?_, ?_, ?_⟩
  · unfold regenStep
    dsimp only
    split_ifs <;>
      exact ⟨by first
          | exact he0
          | exact (min100_mem _ (by linarith)).1,
        by first
          | exact he1
          | exact (min100_mem _ (by linarith)).2,
        by first
          | exact hh0
          | exact (max0_mem _ (by linarith)).1,
        by first
          | exact hh1
          | exact (max0_mem _ (by linarith)).2⟩
  · intro m gs k roll
    rcases timeAdvance_player_cases m gs p k roll with hc | hc <;> rw [hc]
    · exact ⟨he0, he1, hh0, hh1⟩
    · exact ⟨he0, he1, (max0_mem _ (by linarith)).1, (max0_mem _ (by linarith)).2⟩
  · intro m
    obtain ⟨hhu, hen⟩ := moveStep_stats_cases m p
    refine ⟨?_, ?_, ?_, ?_⟩
    · rcases hen with hc | hc <;> rw [hc]
      · exact he0
      · exact (max0_mem _ (by linarith)).1
    · rcases hen with hc | hc <;> rw [hc]
      · exact he1
      · exact (max0_mem _ (by linarith)).2
    · rw [hhu]; exact hh0
    · rw [hhu]; exact hh1
  · intro m gs a
    rcases handleInteraction_player_cases m gs p a with hc | hc | hc <;> rw [hc]
    · exact ⟨he0, he1, hh0, hh1⟩
    · exact ⟨(max0_mem _ (by linarith)).1, (max0_mem _ (by linarith)).2, hh0, hh1⟩
    · exact ⟨(max0_mem _ (by linarith)).1, (max0_mem _ (by linarith)).2, hh0, hh1⟩
  · intro inv active item
    rcases handleUseItem_player_cases inv p active item with hc | hc <;> rw [hc]
    · exact ⟨he0, he1, hh0, hh1⟩
    · have hr := hungerRestore_nonneg item
      exact ⟨he0, he1, (min100_mem _ (by linarith)).1, (min100_mem _ (by linarith)).2⟩

/-- Witness for C4 at a concrete in-range resting player. -/
theorem stats_stay_in_range_witness :
    statsInRange (regenStep restingCenterPlayer) ∧
    statsInRange (moveStep grassWorld restingCenterPlayer) :=
  ⟨(stats_stay_in_range restingCenterPlayer
      (by refine ⟨?_, ?_, ?_, ?_⟩ <;> decide)).1,
    (stats_stay_in_range restingCenterPlayer
      (by refine ⟨?_, ?_, ?_, ?_⟩ <;> decide)).2.2.1 grassWorld⟩

/-- C7: the tide sweep writes only to empty, player-free Sand tiles,
leaving every other tile unchanged; an eligible tile receives at most one
item, determined from a single uniform roll by mutually exclusive bands
(`[0, 0.15)` driftwood, `(0.88, 0.98)` metal, `(0.98, 1)` crate, the rest
no spawn); the grid sweep is the per-tile step at every in-bounds
coordinate. -/
theorem tide_sweep_spec :
    (∀ (tile : Tile) (b : Bool) (q : ℚ),
        ¬ tideEligible tile b → tideTileStep tile b q = tile) ∧
    (∀ (tile : Tile) (b : Bool) (q : ℚ),
        tideEligible tile b →
        tideTileStep tile b q = { tile with item := tideOutcome q }) ∧
    (∀ q : ℚ,
        (tideOutcome q = some ItemType.driftwood ↔ q < 15/100) ∧
        (tideOutcome q = some ItemType.metal ↔ 88/100 < q ∧ q < 98/100) ∧
        (tideOutcome q = some ItemType.crate ↔ 98/100 < q) ∧
        (tideOutcome q = none ↔ (15/100 ≤ q ∧ q ≤ 88/100) ∨ q = 98/100)) ∧
    (∀ (m : WorldMap) (p : Player) (roll : Nat → Nat → ℚ) (x y : Nat),
        x < MAP_WIDTH → y < MAP_HEIGHT →
        triggerTide m p roll x y =
          tideTileStep (m x y)
            (decide (jsRound p.x = (x : ℤ) ∧ jsRound p.y = (y : ℤ)))
            (roll x y)) := by
  refine ⟨?_, ?_, ?_, ?_⟩
  · intro tile b q hne
    unfold tideTileStep
    by_cases h1 : tile.type = TileType.Sand
    · rw [if_pos h1, if_neg (fun hc => hne ⟨h1, hc.1, hc.2.1, hc.2.2⟩)]
    · rw [if_neg h1]
  · rintro tile b q ⟨h1, h2, h3, h4⟩
    unfold tideTileStep tideOutcome
    rw [if_pos h1, if_pos ⟨h2, h3, h4⟩]
    split_ifs
    · rfl
    · rfl
    · rfl
    · cases tile
      simp_all
  · intro q
    unfold tideOutcome
    split_ifs with hd hm hc
    · refine ⟨iff_of_true rfl hd,
        iff_of_false (by simp) (by rintro ⟨a, -⟩; linarith),
        iff_of_false (by simp) (by intro a; linarith),
        iff_of_false (by simp) (by rintro (⟨a, -⟩ | rfl) <;> linarith)⟩
    · refine ⟨iff_of_false (by simp) hd,
        iff_of_true rfl hm,
        iff_of_false (by simp) (by intro a; linarith [hm.2]),
        iff_of_false (by simp)
          (by rintro (⟨-, b⟩ | rfl) <;> linarith [hm.1, hm.2])⟩
    · refine ⟨iff_of_false (by simp) hd,
        iff_of_false (by simp) hm,
        iff_of_true rfl hc,
        iff_of_false (by simp) (by rintro (⟨-, b⟩ | rfl) <;> linarith)⟩
    · refine ⟨iff_of_false (by simp) hd,
        iff_of_false (by simp) hm,
        iff_of_false (by simp) hc,
        iff_of_true rfl ?_⟩
      by_cases hq : q ≤ 88/100
      · exact Or.inl ⟨not_lt.mp hd, hq⟩
      · refine Or.inr (le_antisymm (not_lt.mp hc) ?_)
        have h1 : 88/100 < q := not_le.mp hq
        exact not_lt.mp fun hlt => hm ⟨h1, hlt⟩
  · intro m p roll x y hx hy
    unfold triggerTide
    rw [if_pos ⟨hx, hy⟩]

/-- Witness for C7: an eligible Sand tile draws the low band and gains
driftwood; a Grass tile is untouched by the same roll. -/
theorem tide_sweep_witness :
    tideTileStep sandEmptyTile false (1/10) =
      { sandEmptyTile with item := tideOutcome (1/10) } ∧
    tideTileStep grassEmptyTile false (1/10) = grassEmptyTile := by
  constructor
  · exact tide_sweep_spec.2.1 sandEmptyTile false (1/10) ⟨rfl, rfl, rfl, rfl⟩
  · exact tide_sweep_spec.1 grassEmptyTile false (1/10)
      (by rintro ⟨hty, -⟩; exact absurd hty (by decide))

end Tides
